import Mathlib

/-!
Verification development for the FGMRES reverse-communication driver in
`sparse_dot_mkl/solvers/_fgmres.py`.

The file shallowly embeds the driver's pure decision logic:
  * the status-code mapping performed by the wrappers `dfgmres_init`,
    `dfgmres_check`, `dfgmres`, `dfgmres_get` after each native call;
  * the `tmp` workspace-size computation of `dfgmres_init` (including the
    IEEE-754 double rounding introduced by Python's true division `/`);
  * `set_initial_parameters` as a map on parameter-vector state;
  * `update_tmp` (the Matrix-Multiply Action) on a state holding `ipar`,
    `tmp`, the dimension `n` and the matrix `A` over exact rationals;
  * the `solve` loop of `FGMRESIterativeSparseSolver.solve` and the
    caller-facing `fgmres` entry point, with the opaque native routines
    abstracted as an oracle of status codes.
-/

/-- A raised Python `RuntimeError`, identified by the wrapper that raised it,
the native status code it reported, and whether the code hit one of the
wrapper's distinguished message branches (`known = true`) or the generic
"unknown error" branch (`known = false`). -/
structure PyRuntimeError where
  routine : String
  status : Int
  known : Bool
deriving DecidableEq, Repr

/-- Status handling of `dfgmres_init` (src lines 70-81): after the native init
call reported `status`, raise on `-10000` with a distinguished message, raise
on any other nonzero status as unknown, otherwise return the four buffers
`(x, ipar, dpar, tmp)` (as left by the opaque native call). -/
def dfgmres_init_result {X I D T : Type} (status : Int) (x : X) (ipar : I)
    (dpar : D) (tmp : T) : Except PyRuntimeError (X × I × D × T) :=
  if status = -10000 then
    Except.error ⟨"dfgmres_init", status, true⟩
  else if status ≠ 0 then
    Except.error ⟨"dfgmres_init", status, false⟩
  else
    Except.ok (x, ipar, dpar, tmp)

/-- Status handling of `dfgmres_check` (src lines 124-136): raise on `-1100`
("operation failed"; the source's message says `dcg_check`), warn on `-1001`
or `-1011` (returned as the list of warned statuses) and return the status,
otherwise return the status with no warning. -/
def dfgmres_check_result (status : Int) :
    Except PyRuntimeError (List Int × Int) :=
  if status = -1100 then
    Except.error ⟨"dcg_check", status, true⟩
  else if status = -1001 ∨ status = -1011 then
    Except.ok ([status], status)
  else
    Except.ok ([], status)

/-- Status handling of `dfgmres` (src lines 178-209): `-1` (iteration limit)
passes through, `-10`, `-11`, `-12` raise with distinguished messages, any
other negative status raises as unknown, and any non-negative status is
returned unchanged. -/
def dfgmres_result (status : Int) : Except PyRuntimeError Int :=
  if status = -1 then
    Except.ok status
  else if status = -10 then
    Except.error ⟨"dfgmres", status, true⟩
  else if status = -11 then
    Except.error ⟨"dfgmres", status, true⟩
  else if status = -12 then
    Except.error ⟨"dfgmres", status, true⟩
  else if status < 0 then
    Except.error ⟨"dfgmres", status, false⟩
  else
    Except.ok status

/-- Status handling of `dfgmres_get` (src lines 245-264): raise on `-10000`
and `-12` with distinguished messages, raise on any other nonzero status as
unknown, otherwise return the iteration count reported by the native call. -/
def dfgmres_get_result (status : Int) (num_iteration : Int) :
    Except PyRuntimeError Int :=
  if status = -10000 then
    Except.error ⟨"dfgmres_get", status, true⟩
  else if status = -12 then
    Except.error ⟨"dfgmres_get", status, true⟩
  else if status ≠ 0 then
    Except.error ⟨"dfgmres_get", status, false⟩
  else
    Except.ok num_iteration

/-- Fuel-driven bit length: `bitsAux fuel m` is the number of binary digits of
`m` whenever `m < 2 ^ fuel`. -/
def bitsAux : Nat → Nat → Nat
  | 0, _ => 0
  | fuel + 1, m => if m = 0 then 0 else bitsAux fuel (m / 2) + 1

/-- Bit length of a natural number below `2 ^ 128` (ample for the workspace
sizes at hand). -/
def bits (m : Nat) : Nat := bitsAux 128 m

/-- Round a nonnegative integer value to the nearest IEEE-754 binary64
value (53-bit significand, ties to even), returned as a natural number.
This models how CPython's float arithmetic treats the integer-valued
quantities appearing in the `tmp`-size computation of `dfgmres_init`
(src line 55): every intermediate there is a nonnegative integer, so the
only effect of the float detour is this rounding. -/
def roundNat (m : Nat) : Nat :=
  if m < 2 ^ 53 then m
  else
    let s := bits m - 53
    let d := 2 ^ s
    let q := m / d
    let r := m % d
    if 2 * r < d then q * d
    else if d < 2 * r then (q + 1) * d
    else if q % 2 = 0 then q * d
    else (q + 1) * d

/-- The `tmp` workspace length computed by `dfgmres_init` (src line 55):
`int(n * (2 * n + 1) + (n * (n + 9)) / 2 + 1)` with Python semantics.
`n * (2 * n + 1)` is exact integer arithmetic; `(n * (n + 9)) / 2` is float
true division (its exact value is an integer since `n * (n + 9)` is even, so
the division only rounds to binary64); adding the int to the float first
converts the int to a correctly rounded double; both additions are float
additions, each correctly rounded; the final `int(...)` truncation is the
identity because every intermediate is an integer-valued double. -/
def tmp_size (n : Nat) : Nat :=
  roundNat (roundNat (roundNat (n * (2 * n + 1)) + roundNat (n * (n + 9) / 2)) + 1)

/-- Point update of a function-represented array: `setIdx f i v` is `f` with
slot `i` overwritten by `v` (numpy `f[i] = v`). -/
def setIdx {A : Type} (f : Nat → A) (i : Nat) (v : A) : Nat → A :=
  fun k => if k = i then v else f k

/-- The mutable buffers of one solver instance that
`set_initial_parameters` can see: the integer and double parameter vectors
and the solution and workspace buffers (slots as total functions, exact
rationals for the double-typed entries). -/
structure ParamState where
  ipar : Nat → Int
  dpar : Nat → ℚ
  x : Nat → ℚ
  tmp : Nat → ℚ

/-- `FGMRESIterativeSparseSolver.set_initial_parameters` (src lines 341-358):
writes `ipar[4] = max_iter`, `ipar[5] = ipar[6] = 1` if debug or verbose else
`0`, `ipar[7] = 1`, `ipar[8] = 1`, `ipar[9] = 0`, `ipar[11] = 1`,
`dpar[0] = r_tol`, `dpar[1] = a_tol`, in source order, and touches nothing
else. `debug` stands for the external flag `MKL.MKL_DEBUG`. -/
def set_initial_parameters (debug verbose : Bool) (max_iter : Nat)
    (r_tol a_tol : ℚ) (st : ParamState) : ParamState :=
  let verbosity : Int := if debug || verbose then 1 else 0
  { st with
    ipar :=
      setIdx (setIdx (setIdx (setIdx (setIdx (setIdx (setIdx
        st.ipar 4 (max_iter : Int)) 5 verbosity) 6 verbosity) 7 1) 8 1) 9 0)
        11 1,
    dpar := setIdx (setIdx st.dpar 0 r_tol) 1 a_tol }

/-- The solver state seen by the Matrix-Multiply Action `update_tmp`:
dimension `n`, the sparse matrix `A` (as its entry function, exact
rationals), the integer parameter vector and the workspace buffer. -/
structure MVState where
  n : Nat
  A : Nat → Nat → ℚ
  ipar : Nat → Int
  tmp : Nat → ℚ

/-- Modelled from the spec: the external MKL sparse matrix-vector multiply
capability `MKL._mkl_sparse_d_mv` reached through the ctypes bridge in
`sparse_dot_mkl/_mkl_interface.py` (repository code not under `src/`).
Per the spec's external-interface contract ("multiply a vector slice by the
matrix, accumulate into another slice"), with operation code 10
(non-transpose) it computes `y := beta * y + alpha * A * x` on `n` entries;
the bridge passes only the base pointers of the numpy slices, and the extent
`n` comes from the matrix handle, so the action reads the `n` entries of
`tmp` starting at `xoff` and writes the `n` entries starting at `yoff`. -/
def mkl_sparse_d_mv (alpha : ℚ) (n : Nat) (A : Nat → Nat → ℚ) (xoff : Nat)
    (beta : ℚ) (yoff : Nat) (tmp : Nat → ℚ) : Nat → ℚ :=
  fun idx =>
    if yoff ≤ idx ∧ idx < yoff + n then
      beta * tmp idx +
        alpha * Finset.sum (Finset.range n) (fun j => A (idx - yoff) j * tmp (xoff + j))
    else tmp idx

/-- `FGMRESIterativeSparseSolver.update_tmp` (src lines 360-373): read the
two 1-based workspace offsets from `ipar[21]` and `ipar[22]` and invoke the
multiply capability with `alpha = 1`, `beta = 1` on the `tmp` slices based at
(offset − 1). -/
def update_tmp (st : MVState) : MVState :=
  let input_matmul_offset := st.ipar 21
  let output_matmul_offset := st.ipar 22
  { st with
    tmp := mkl_sparse_d_mv 1 st.n st.A (input_matmul_offset - 1).toNat 1
      (output_matmul_offset - 1).toNat st.tmp }

/-- Modelled from the spec: the opaque native RCI routines of one solve, as
an oracle. `initStatus` and `checkStatus` are the statuses reported by the
native init and check calls; `stepStatus t` is the status written by the
`t`-th native one-step call (`t = 0, 1, ...`); `xAfter t` is the content of
the solution buffer `x` after `t` completed step calls (`xAfter 0` is its
content after init/check). All numeric effects of the native routines on
`x`, `ipar`, `dpar`, `tmp` are folded into the oracle; the driver logic under
verification never inspects them except through the status codes. -/
structure NativeOracle (X : Type) where
  initStatus : Int
  checkStatus : Int
  stepStatus : Nat → Int
  xAfter : Nat → X

/-- A Python warning emitted by the driver: a `RuntimeWarning` from
`dfgmres_check` carrying the irregular status, or the `ConvergenceWarning`
of `solve` naming the iteration count. -/
inductive SolverWarning
  | checkIrregular (status : Int)
  | convergence (iters : Nat)
deriving DecidableEq, Repr

/-- An exception escaping `fgmres`: the `NotImplementedError` of the input
gate, or a propagated `RuntimeError` (only init/check-time ones can escape;
solve-time ones are caught). -/
inductive PyErr
  | notImplementedError (msg : String)
  | runtimeError (e : PyRuntimeError)
deriving DecidableEq, Repr

/-- One native call made on behalf of a solve, in order: the init call
(recording the `tmp` length allocated for it), the check call, or one
one-step call. -/
inductive NCall
  | initCall (tmpSize : Nat)
  | checkCall
  | stepCall
deriving DecidableEq, Repr

/-- The loop-visible state of `FGMRESIterativeSparseSolver.solve`:
`t` native step calls completed so far, the running `current_iter`
counter, the last request code stored in `final_code` (modelled from the
spec as unset before the first assignment), and the warnings emitted. -/
structure LoopState where
  t : Nat
  current_iter : Nat
  final_code : Option Int
  warns : List SolverWarning
deriving DecidableEq, Repr

/-- The `for return_value in self` loop of
`FGMRESIterativeSparseSolver.solve` (src lines 319-337), one fuel unit per
loop iteration. Modelled from the spec for the base-class iterator
(`MKLIterativeSparseSolver.__next__`, repository code not under `src/`):
each step increments `current_iter`, invokes the native one-step routine
through the `dfgmres` wrapper (which may raise), dispatches the
Matrix-Multiply Action on request code 1 (its numeric effect is folded into
the oracle), and yields the code. The loop body then stores the code in
`final_code`; codes 1, 2, 3 fall through; code 0 breaks; otherwise, if
`current_iter > max_iter`, a `ConvergenceWarning` naming `current_iter` is
emitted and the loop breaks. A raised `PyRuntimeError` is returned at the
side. -/
def solveLoop {X : Type} (o : NativeOracle X) (max_iter : Nat) :
    Nat → LoopState → LoopState × Option PyRuntimeError
  | 0, st => (st, none)
  | fuel + 1, st =>
    let ci := st.current_iter + 1
    match dfgmres_result (o.stepStatus st.t) with
    | Except.error e => ({ st with t := st.t + 1, current_iter := ci }, some e)
    | Except.ok v =>
      let st1 : LoopState :=
        { t := st.t + 1, current_iter := ci, final_code := some v,
          warns := st.warns }
      if v = 0 then (st1, none)
      else if max_iter < ci then
        ({ st1 with warns := st1.warns ++ [SolverWarning.convergence ci] },
         none)
      else solveLoop o max_iter fuel st1

/-- Loop state at entry of `solve`: no steps taken, `current_iter` reset to
0, `final_code` unset, no warnings. -/
def startState : LoopState := ⟨0, 0, none, []⟩

/-- Run the `solve` loop to completion. The loop makes at most
`max_iter + 1` iterations (each iteration increments `current_iter` and
the loop breaks once it exceeds `max_iter`), so fuel `max_iter + 2` is
never exhausted. -/
def runSolve {X : Type} (o : NativeOracle X) (max_iter : Nat) :
    LoopState × Option PyRuntimeError :=
  solveLoop o max_iter (max_iter + 2) startState

/-- What one call of the caller-facing `fgmres` produces: the returned value
or escaped exception, the warnings emitted, and the ordered list of native
calls made. -/
structure FgmresResult (X : Type) where
  result : Except PyErr (X × Option Int)
  warns : List SolverWarning
  calls : List NCall
deriving Repr

/-- The caller-facing entry point `fgmres` (src lines 375-431): reject a
non-`None` preconditioner `M`, then a non-`None` `callback` or
`callback_type`, with `NotImplementedError` before anything else happens;
then enter the solver context (`__enter__`: native init via the
`dfgmres_init` wrapper — raising outside the `try`, so propagated — then
`set_initial_parameters` with no native call, then native check via the
`dfgmres_check` wrapper, likewise propagated); then run the `solve` loop
under `try`, catching `RuntimeError` and returning
`(gmres_solver.x, gmres_solver.final_code)` in both the caught and the
normal case. `n` is the problem dimension; `x0`, `tol`, `atol` only shape
the numeric state, which the oracle absorbs; `restart` is accepted and
never read. -/
def fgmres_model {X P C T R : Type} (n : Nat) (o : NativeOracle X)
    (max_iter : Nat) (M : Option P) (callback : Option C)
    (callback_type : Option T) (restart : Option R) : FgmresResult X :=
  if M.isSome then
    ⟨Except.error (PyErr.notImplementedError "Preconditioner M not supported"),
     [], []⟩
  else if callback.isSome || callback_type.isSome then
    ⟨Except.error (PyErr.notImplementedError "callback is not supported"),
     [], []⟩
  else
    match dfgmres_init_result o.initStatus () () () () with
    | Except.error e =>
      ⟨Except.error (PyErr.runtimeError e), [], [NCall.initCall (tmp_size n)]⟩
    | Except.ok _ =>
      match dfgmres_check_result o.checkStatus with
      | Except.error e =>
        ⟨Except.error (PyErr.runtimeError e), [],
         [NCall.initCall (tmp_size n), NCall.checkCall]⟩
      | Except.ok (ws, _) =>
        let r := runSolve o max_iter
        ⟨Except.ok (o.xAfter r.1.t, r.1.final_code),
         ws.map SolverWarning.checkIrregular ++ r.1.warns,
         NCall.initCall (tmp_size n) :: NCall.checkCall ::
           List.replicate r.1.t NCall.stepCall⟩

/-- Oracle of a run whose first step already reports convergence. -/
def oConv : NativeOracle Nat := ⟨0, 0, fun _ => 0, fun t => t⟩

/-- Oracle of a non-trivial run: every step requests a matrix-vector
multiply (request code 1), never converging. -/
def oCap0 : NativeOracle Nat := ⟨0, 0, fun _ => 1, fun t => t⟩

/-- Oracle of a run whose first step requests a multiply (code 1) and whose
second step reports the degenerate-matrix fatal status `-10`. -/
def oFatal : NativeOracle Nat :=
  ⟨0, 0, fun t => if t = 0 then 1 else -10, fun t => t⟩

/-- Concrete Matrix-Multiply Action state: `n = 2`, all-ones matrix,
`ipar[21] = 1` and `ipar[22] = 3` (1-based offsets), `tmp` holding the value
of its index. -/
def mvEx : MVState :=
  ⟨2, fun _ _ => 1,
   fun k => if k = 21 then 1 else if k = 22 then 3 else 0,
   fun idx => (idx : ℚ)⟩

/-- Concrete parameter-vector state with constant buffers, for exercising
`set_initial_parameters`. -/
def pEx : ParamState := ⟨fun _ => 7, fun _ => 5, fun _ => 5, fun _ => 5⟩

theorem roundNat_eq_of_lt {m : Nat} (h : m < 2 ^ 53) : roundNat m = m := by
  unfold roundNat
  rw [if_pos h]

/-- C4: the step wrapper `dfgmres` returns the status unchanged for `-1` and
for every non-negative status; it raises with a distinguished message exactly
for `-10`, `-11`, `-12`; it raises as unrecognized for every other negative
status; and it raises only on negative statuses other than `-1`. -/
theorem C4_dfgmres_status_mapping (s : Int) :
    ((s = -1 ∨ 0 ≤ s) → dfgmres_result s = Except.ok s)
    ∧ ((s = -10 ∨ s = -11 ∨ s = -12) →
        dfgmres_result s = Except.error ⟨"dfgmres", s, true⟩)
    ∧ (s < 0 → s ≠ -1 → s ≠ -10 → s ≠ -11 → s ≠ -12 →
        dfgmres_result s = Except.error ⟨"dfgmres", s, false⟩)
    ∧ (∀ e, dfgmres_result s = Except.error e → s < 0 ∧ s ≠ -1) := by
  refine ⟨?_, ?_, ?_, ?_⟩
  · intro h
    unfold dfgmres_result
    split_ifs <;> first | rfl | omega
  · intro h
    unfold dfgmres_result
    split_ifs <;> first | rfl | omega
  · intro h1 h2 h3 h4 h5
    unfold dfgmres_result
    split_ifs <;> first | rfl | omega
  · intro e h
    unfold dfgmres_result at h
    split_ifs at h <;> first | omega | cases h

/-- C4 witness: concrete statuses exercising the pass-through, distinguished
and unrecognized branches. -/
theorem C4_witness :
    dfgmres_result (-1) = Except.ok (-1)
    ∧ dfgmres_result 4 = Except.ok 4
    ∧ dfgmres_result (-10) = Except.error ⟨"dfgmres", -10, true⟩
    ∧ dfgmres_result (-7) = Except.error ⟨"dfgmres", -7, false⟩ :=
  ⟨(C4_dfgmres_status_mapping (-1)).1 (Or.inl rfl),
   (C4_dfgmres_status_mapping 4).1 (Or.inr (by decide)),
   (C4_dfgmres_status_mapping (-10)).2.1 (Or.inl rfl),
   (C4_dfgmres_status_mapping (-7)).2.2.1 (by decide) (by decide) (by decide)
     (by decide) (by decide)⟩

/-- C5: the check wrapper `dfgmres_check` raises exactly on `-1100`; on
`-1001` and `-1011` it warns (the warned status is recorded) and returns the
status; on every other status it returns the status with no warning. -/
theorem C5_check_status_mapping (s : Int) :
    (s = -1100 → dfgmres_check_result s = Except.error ⟨"dcg_check", s, true⟩)
    ∧ ((s = -1001 ∨ s = -1011) → dfgmres_check_result s = Except.ok ([s], s))
    ∧ (s ≠ -1100 → s ≠ -1001 → s ≠ -1011 →
        dfgmres_check_result s = Except.ok ([], s)) := by
  refine ⟨?_, ?_, ?_⟩
  · intro h
    unfold dfgmres_check_result
    split_ifs <;> first | rfl | omega
  · intro h
    unfold dfgmres_check_result
    split_ifs <;> first | rfl | omega
  · intro h1 h2 h3
    unfold dfgmres_check_result
    split_ifs <;> first | rfl | omega

/-- C5 witness: concrete statuses exercising the fatal, warning and silent
branches. -/
theorem C5_witness :
    dfgmres_check_result (-1100) = Except.error ⟨"dcg_check", -1100, true⟩
    ∧ dfgmres_check_result (-1001) = Except.ok ([-1001], -1001)
    ∧ dfgmres_check_result (-1011) = Except.ok ([-1011], -1011)
    ∧ dfgmres_check_result 0 = Except.ok ([], 0) :=
  ⟨(C5_check_status_mapping (-1100)).1 rfl,
   (C5_check_status_mapping (-1001)).2.1 (Or.inl rfl),
   (C5_check_status_mapping (-1011)).2.1 (Or.inr rfl),
   (C5_check_status_mapping 0).2.2 (by decide) (by decide) (by decide)⟩

/-- C9: `dfgmres_init` raises exactly on nonzero native status (`-10000`
distinguished, any other nonzero unrecognized) and otherwise returns
`(x, ipar, dpar, tmp)`; `dfgmres_get` raises exactly on nonzero native
status (`-10000` and `-12` distinguished, any other nonzero unrecognized)
and otherwise returns the iteration count reported by the native call. -/
theorem C9_init_get_status_mapping {X I D T : Type} (s it : Int) (x : X)
    (ipar : I) (dpar : D) (tmp : T) :
    (s = 0 → dfgmres_init_result s x ipar dpar tmp = Except.ok (x, ipar, dpar, tmp))
    ∧ (s = -10000 →
        dfgmres_init_result s x ipar dpar tmp = Except.error ⟨"dfgmres_init", s, true⟩)
    ∧ (s ≠ 0 → s ≠ -10000 →
        dfgmres_init_result s x ipar dpar tmp = Except.error ⟨"dfgmres_init", s, false⟩)
    ∧ (s = 0 → dfgmres_get_result s it = Except.ok it)
    ∧ (s = -10000 → dfgmres_get_result s it = Except.error ⟨"dfgmres_get", s, true⟩)
    ∧ (s = -12 → dfgmres_get_result s it = Except.error ⟨"dfgmres_get", s, true⟩)
    ∧ (s ≠ 0 → s ≠ -10000 → s ≠ -12 →
        dfgmres_get_result s it = Except.error ⟨"dfgmres_get", s, false⟩) := by
  refine ⟨?_, ?_, ?_, ?_, ?_, ?_, ?_⟩ <;> intros <;>
    first
      | (unfold dfgmres_init_result; split_ifs <;> first | rfl | omega)
      | (unfold dfgmres_get_result; split_ifs <;> first | rfl | omega)

/-- C9 witness: concrete statuses exercising the success, distinguished and
unrecognized branches of both wrappers. -/
theorem C9_witness :
    dfgmres_init_result 0 (1 : Nat) (2 : Nat) (3 : Nat) (4 : Nat)
      = Except.ok (1, 2, 3, 4)
    ∧ dfgmres_init_result (-10000) (1 : Nat) (2 : Nat) (3 : Nat) (4 : Nat)
      = Except.error ⟨"dfgmres_init", -10000, true⟩
    ∧ dfgmres_init_result 5 (1 : Nat) (2 : Nat) (3 : Nat) (4 : Nat)
      = Except.error ⟨"dfgmres_init", 5, false⟩
    ∧ dfgmres_get_result 0 42 = Except.ok 42
    ∧ dfgmres_get_result (-12) 42 = Except.error ⟨"dfgmres_get", -12, true⟩
    ∧ dfgmres_get_result 3 42 = Except.error ⟨"dfgmres_get", 3, false⟩ :=
  ⟨(C9_init_get_status_mapping 0 0 1 2 3 4).1 rfl,
   (C9_init_get_status_mapping (-10000) 0 1 2 3 4).2.1 rfl,
   (C9_init_get_status_mapping 5 0 1 2 3 4).2.2.1 (by decide) (by decide),
   (C9_init_get_status_mapping 0 42 1 2 3 4).2.2.2.1 rfl,
   (C9_init_get_status_mapping (-12) 42 1 2 3 4).2.2.2.2.2.1 rfl,
   (C9_init_get_status_mapping 3 42 1 2 3 4).2.2.2.2.2.2 (by decide)
     (by decide) (by decide)⟩

/-- C7 counterexample: at `n = 2 ^ 27 = 134217728` the workspace length
computed by `dfgmres_init` (which goes through Python float true division
and float addition) is one less than the exact integer
`n * (2 * n + 1) + n * (n + 9) / 2 + 1`, because the final `+ 1` is absorbed
by binary64 rounding. -/
theorem C7_counterexample :
    tmp_size 134217728
      ≠ 134217728 * (2 * 134217728 + 1) + 134217728 * (134217728 + 9) / 2 + 1 := by
  decide

/-- C7 (amended): whenever the exact value
`n * (2 * n + 1) + n * (n + 9) / 2 + 1` is below `2 ^ 53`, every
intermediate of the float evaluation is exactly representable, so
`dfgmres_init` computes exactly that integer. -/
theorem C7_tmp_size_small (n : Nat) (hpos : 0 < n)
    (hsmall : n * (2 * n + 1) + n * (n + 9) / 2 + 1 < 2 ^ 53) :
    tmp_size n = n * (2 * n + 1) + n * (n + 9) / 2 + 1 := by
  unfold tmp_size
  have h1 : n * (2 * n + 1) < 2 ^ 53 := by omega
  have h2 : n * (n + 9) / 2 < 2 ^ 53 := by omega
  have h3 : n * (2 * n + 1) + n * (n + 9) / 2 < 2 ^ 53 := by omega
  rw [roundNat_eq_of_lt h1, roundNat_eq_of_lt h2, roundNat_eq_of_lt h3,
    roundNat_eq_of_lt hsmall]

/-- C7 witness: at `n = 4` the workspace length is the exact
`4 * 9 + 4 * 13 / 2 + 1 = 63`. -/
theorem C7_witness :
    tmp_size 4 = 4 * (2 * 4 + 1) + 4 * (4 + 9) / 2 + 1 :=
  C7_tmp_size_small 4 (by decide) (by decide)

/-- C8: `set_initial_parameters` writes exactly the documented slots —
`ipar[4]` gets the iteration limit, `ipar[5]` and `ipar[6]` the verbosity
flag, `ipar[7] = 1`, `ipar[8] = 1`, `ipar[9] = 0`, `ipar[11] = 1`,
`dpar[0]` and `dpar[1]` the relative and absolute tolerances — and every
other `ipar` and `dpar` slot, and all of `x` and `tmp`, are unchanged. -/
theorem C8_set_initial_parameters_frame (debug verbose : Bool)
    (max_iter : Nat) (r_tol a_tol : ℚ) (st : ParamState) :
    (set_initial_parameters debug verbose max_iter r_tol a_tol st).ipar 4 = max_iter
    ∧ (set_initial_parameters debug verbose max_iter r_tol a_tol st).ipar 5
        = (if debug || verbose then 1 else 0)
    ∧ (set_initial_parameters debug verbose max_iter r_tol a_tol st).ipar 6
        = (if debug || verbose then 1 else 0)
    ∧ (set_initial_parameters debug verbose max_iter r_tol a_tol st).ipar 7 = 1
    ∧ (set_initial_parameters debug verbose max_iter r_tol a_tol st).ipar 8 = 1
    ∧ (set_initial_parameters debug verbose max_iter r_tol a_tol st).ipar 9 = 0
    ∧ (set_initial_parameters debug verbose max_iter r_tol a_tol st).ipar 11 = 1
    ∧ (∀ k, k ≠ 4 → k ≠ 5 → k ≠ 6 → k ≠ 7 → k ≠ 8 → k ≠ 9 → k ≠ 11 →
        (set_initial_parameters debug verbose max_iter r_tol a_tol st).ipar k
          = st.ipar k)
    ∧ (set_initial_parameters debug verbose max_iter r_tol a_tol st).dpar 0 = r_tol
    ∧ (set_initial_parameters debug verbose max_iter r_tol a_tol st).dpar 1 = a_tol
    ∧ (∀ k, k ≠ 0 → k ≠ 1 →
        (set_initial_parameters debug verbose max_iter r_tol a_tol st).dpar k
          = st.dpar k)
    ∧ (set_initial_parameters debug verbose max_iter r_tol a_tol st).x = st.x
    ∧ (set_initial_parameters debug verbose max_iter r_tol a_tol st).tmp = st.tmp := by
  refine ⟨rfl, rfl, rfl, rfl, rfl, rfl, rfl, ?_, rfl, rfl, ?_, rfl, rfl⟩
  · intro k h4 h5 h6 h7 h8 h9 h11
    simp [set_initial_parameters, setIdx, h4, h5, h6, h7, h8, h9, h11]
  · intro k h0 h1
    simp [set_initial_parameters, setIdx, h0, h1]

/-- C8 witness: a slot outside the documented set is untouched and the
max-iteration slot receives the limit, at a concrete state. -/
theorem C8_witness :
    (set_initial_parameters false false 10 1 0 pEx).ipar 12 = pEx.ipar 12
    ∧ (set_initial_parameters false false 10 1 0 pEx).dpar 2 = pEx.dpar 2
    ∧ (set_initial_parameters false false 10 1 0 pEx).ipar 4 = 10 :=
  ⟨(C8_set_initial_parameters_frame false false 10 1 0 pEx).2.2.2.2.2.2.2.1 12
      (by decide) (by decide) (by decide) (by decide) (by decide) (by decide)
      (by decide),
   (C8_set_initial_parameters_frame false false 10 1 0 pEx).2.2.2.2.2.2.2.2.2.2.1 2
      (by decide) (by decide),
   (C8_set_initial_parameters_frame false false 10 1 0 pEx).1⟩

/-- C1: with 1-based workspace offsets `i = ipar[21]` and `o = ipar[22]`,
the Matrix-Multiply Action adds `A` applied to the length-`n` slice of `tmp`
based at `i - 1` onto the length-`n` slice based at `o - 1`
(`out += A·in`); consequently a pre-zeroed output slice ends up holding
exactly `A·v`, and a non-zero one holds `existing + A·v`, in exact rational
arithmetic. -/
theorem C1_update_tmp_accumulates (st : MVState) (i o : Nat)
    (hi : st.ipar 21 = i) (ho : st.ipar 22 = o) (hi1 : 1 ≤ i) (ho1 : 1 ≤ o) :
    (∀ k, k < st.n →
      (update_tmp st).tmp (o - 1 + k)
        = st.tmp (o - 1 + k)
          + Finset.sum (Finset.range st.n) (fun j => st.A k j * st.tmp (i - 1 + j)))
    ∧ ((∀ k, k < st.n → st.tmp (o - 1 + k) = 0) →
        ∀ k, k < st.n →
          (update_tmp st).tmp (o - 1 + k)
            = Finset.sum (Finset.range st.n) (fun j => st.A k j * st.tmp (i - 1 + j))) := by
  have hoff : (update_tmp st).tmp
      = mkl_sparse_d_mv 1 st.n st.A (i - 1) 1 (o - 1) st.tmp := by
    unfold update_tmp
    rw [hi, ho]
    dsimp only
    have h1 : ((i : Int) - 1).toNat = i - 1 := by omega
    have h2 : ((o : Int) - 1).toNat = o - 1 := by omega
    rw [h1, h2]
  have main : ∀ k, k < st.n →
      (update_tmp st).tmp (o - 1 + k)
        = st.tmp (o - 1 + k)
          + Finset.sum (Finset.range st.n) (fun j => st.A k j * st.tmp (i - 1 + j)) := by
    intro k hk
    rw [hoff]
    unfold mkl_sparse_d_mv
    rw [if_pos ⟨Nat.le_add_right _ _, by omega⟩]
    have hk2 : o - 1 + k - (o - 1) = k := by omega
    rw [hk2]
    simp only [one_mul]
  refine ⟨main, ?_⟩
  intro hz k hk
  rw [main k hk, hz k hk, zero_add]

/-- C1 witness: the accumulate equation instantiated at the concrete state
`mvEx` (offsets `ipar[21] = 1`, `ipar[22] = 3`), output index `k = 0`. -/
theorem C1_witness :
    (update_tmp mvEx).tmp (3 - 1 + 0)
      = mvEx.tmp (3 - 1 + 0)
        + Finset.sum (Finset.range mvEx.n)
            (fun j => mvEx.A 0 j * mvEx.tmp (1 - 1 + j)) :=
  (C1_update_tmp_accumulates mvEx 1 3 (by decide) (by decide) (by decide)
    (by decide)).1 0 (by decide)

/-- C10: the `restart` argument of `fgmres` is accepted and never read: two
invocations differing only in `restart` produce identical results, warnings,
and native-call traces (in particular the recorded `tmp` allocation size,
which depends only on `n`). -/
theorem C10_restart_has_no_effect {X P C T R : Type} (n : Nat)
    (o : NativeOracle X) (max_iter : Nat) (M : Option P)
    (callback : Option C) (callback_type : Option T) (r1 r2 : Option R) :
    fgmres_model n o max_iter M callback callback_type r1
      = fgmres_model n o max_iter M callback callback_type r2 := rfl

/-- C3: a non-`None` preconditioner `M` or a non-`None` callback makes
`fgmres` raise `NotImplementedError` with no native call made and no
warning emitted — nothing happens before the rejection. -/
theorem C3_input_gate {X P C T R : Type} (n : Nat) (o : NativeOracle X)
    (max_iter : Nat) (M : Option P) (callback : Option C)
    (callback_type : Option T) (restart : Option R)
    (h : M.isSome = true ∨ callback.isSome = true) :
    (∃ msg, (fgmres_model n o max_iter M callback callback_type restart).result
        = Except.error (PyErr.notImplementedError msg))
    ∧ (fgmres_model n o max_iter M callback callback_type restart).calls = []
    ∧ (fgmres_model n o max_iter M callback callback_type restart).warns = [] := by
  unfold fgmres_model
  rcases h with h | h
  · rw [if_pos h]
    exact ⟨⟨_, rfl⟩, rfl, rfl⟩
  · by_cases hM : M.isSome = true
    · rw [if_pos hM]
      exact ⟨⟨_, rfl⟩, rfl, rfl⟩
    · rw [if_neg hM, if_pos (show (callback.isSome || callback_type.isSome) = true by rw [h]; rfl)]
      exact ⟨⟨_, rfl⟩, rfl, rfl⟩

/-- C3 witness: a call with a preconditioner is rejected with no native
calls, at concrete inputs. -/
theorem C3_witness :
    (∃ msg, (fgmres_model 3 oConv 5 (some 0) (none : Option Unit)
        (none : Option Unit) (none : Option Unit)).result
        = Except.error (PyErr.notImplementedError msg))
    ∧ (fgmres_model 3 oConv 5 (some 0) (none : Option Unit)
        (none : Option Unit) (none : Option Unit)).calls = []
    ∧ (fgmres_model 3 oConv 5 (some 0) (none : Option Unit)
        (none : Option Unit) (none : Option Unit)).warns = [] :=
  C3_input_gate 3 oConv 5 (some 0) none none none (Or.inl rfl)

/-- C2 (amended): when init and check succeed and a native step raises a
fatal `RuntimeError` during the solve loop, `fgmres` does not propagate the
exception: it returns `Except.ok` with the solver's current solution buffer
and the last request code recorded in `final_code` before the fatal step
(not the fatal status code itself — the step wrapper raises instead of
returning it, so it is never stored). -/
theorem C2_fatal_error_not_propagated {X : Type} (o : NativeOracle X)
    (n max_iter : Nat) (hinit : o.initStatus = 0) (ws : List Int) (cs : Int)
    (hcheck : dfgmres_check_result o.checkStatus = Except.ok (ws, cs))
    (st : LoopState) (e : PyRuntimeError)
    (hrun : runSolve o max_iter = (st, some e)) :
    (fgmres_model n o max_iter (none : Option Unit) (none : Option Unit)
        (none : Option Unit) (none : Option Unit)).result
      = Except.ok (o.xAfter st.t, st.final_code) := by
  unfold fgmres_model
  rw [if_neg (by simp), if_neg (by simp), hinit]
  have h0 : dfgmres_init_result (0 : Int) (() : Unit) (() : Unit) (() : Unit)
      (() : Unit) = Except.ok ((), (), (), ()) := rfl
  rw [h0, hcheck, hrun]

/-- C2 witness: the amended statement instantiated at the oracle whose
second step reports the fatal status `-10`. -/
theorem C2_witness :
    (fgmres_model 4 oFatal 10 (none : Option Unit) (none : Option Unit)
        (none : Option Unit) (none : Option Unit)).result
      = Except.ok (oFatal.xAfter 2, some 1) :=
  C2_fatal_error_not_propagated oFatal 4 10 rfl [] 0 rfl
    ⟨2, 2, some 1, []⟩ ⟨"dfgmres", -10, true⟩ (by decide)

/-- C2 counterexample: with init and check succeeding, the first step
returning request code 1 and the second step reporting the fatal status
`-10`, `fgmres` returns the status `some 1` — the last recorded request
code — not the fatal status `-10` the claim promises. -/
theorem C2_counterexample :
    runSolve oFatal 10
      = (⟨2, 2, some 1, []⟩, some ⟨"dfgmres", -10, true⟩)
    ∧ (fgmres_model 4 oFatal 10 (none : Option Unit) (none : Option Unit)
        (none : Option Unit) (none : Option Unit)).result
      = Except.ok (2, some 1)
    ∧ some (1 : Int) ≠ some (-10 : Int) :=
  ⟨by decide, rfl, by decide⟩

/-- C6: one step of the solve loop — (1) request code 0 breaks the loop at
once with `final_code = 0` and no new warning; (2) request codes 1, 2, 3 are
accepted without rejection and, while `current_iter` stays within
`max_iter`, the loop continues; (3) once `current_iter` exceeds `max_iter`
after a non-zero code, a `ConvergenceWarning` naming the iteration count is
emitted and the loop breaks without error; and (4) with the iteration cap 0
on a non-trivial problem (first request a multiply), the exhaustion warning
surfaces on the first loop check and no fatal error is raised. -/
theorem C6_solve_loop_policy {X : Type} (o : NativeOracle X)
    (mi fuel : Nat) (st : LoopState) :
    (o.stepStatus st.t = 0 →
      solveLoop o mi (fuel + 1) st
        = ({ t := st.t + 1, current_iter := st.current_iter + 1,
             final_code := some 0, warns := st.warns }, none))
    ∧ (∀ s : Int, o.stepStatus st.t = s → (s = 1 ∨ s = 2 ∨ s = 3) →
        st.current_iter + 1 ≤ mi →
        solveLoop o mi (fuel + 1) st
          = solveLoop o mi fuel
              { t := st.t + 1, current_iter := st.current_iter + 1,
                final_code := some s, warns := st.warns })
    ∧ (∀ s : Int, o.stepStatus st.t = s → (s = 1 ∨ s = 2 ∨ s = 3) →
        mi < st.current_iter + 1 →
        solveLoop o mi (fuel + 1) st
          = ({ t := st.t + 1, current_iter := st.current_iter + 1,
               final_code := some s,
               warns := st.warns
                 ++ [SolverWarning.convergence (st.current_iter + 1)] }, none))
    ∧ runSolve oCap0 0
        = (⟨1, 1, some 1, [SolverWarning.convergence 1]⟩, none) := by
  refine ⟨?_, ?_, ?_, by decide⟩
  · intro h
    simp only [solveLoop, h]
    rfl
  · intro s hs hmem hle
    have hok : dfgmres_result (o.stepStatus st.t) = Except.ok s := by
      rw [hs]; rcases hmem with rfl | rfl | rfl <;> rfl
    have hv0 : ¬s = 0 := by rcases hmem with rfl | rfl | rfl <;> decide
    simp only [solveLoop, hok]
    rw [if_neg hv0, if_neg (by omega)]
  · intro s hs hmem hgt
    have hok : dfgmres_result (o.stepStatus st.t) = Except.ok s := by
      rw [hs]; rcases hmem with rfl | rfl | rfl <;> rfl
    have hv0 : ¬s = 0 := by rcases hmem with rfl | rfl | rfl <;> decide
    simp only [solveLoop, hok]
    rw [if_neg hv0, if_pos hgt]

/-- C6 witness: the break-on-zero equation instantiated at the oracle whose
first step converges, from the loop's start state. -/
theorem C6_witness :
    solveLoop oConv 3 1 startState
      = ({ t := 1, current_iter := 1, final_code := some 0, warns := [] },
         none) :=
  (C6_solve_loop_policy oConv 3 0 startState).1 rfl
